import Mathlib

/-!
Verification of the three recommendation scripts of this repository:

* `src/skills/database-storage/scripts/storage_selector.py`
* `src/skills/performance/scripts/perf_analyzer.py`
* `src/skills/state-management/scripts/state_selector.py`

Each script defines one zero-argument function returning a literal Python
dict mapping category names to lists of option names, and, when run as the
program entry point, prints `json.dumps(table, indent=2)` to standard
output.  We embed the Python value domain the scripts construct (strings,
lists, insertion-ordered dicts) as a `Json` inductive, the behaviour of
`json.dumps(..., indent=2)` and of `json.loads` on that domain, and the
three selector functions themselves, and prove the specified properties.
-/

namespace FlutterPlugin

/-- The Python value domain constructed by the three scripts: strings,
lists, and insertion-ordered dicts (modelled as association lists, which
preserves Python 3.7+ dict insertion order). -/
inductive Json where
  | str : String → Json
  | arr : List Json → Json
  | obj : List (String × Json) → Json
deriving Repr

/-- Hexadecimal digit character, lower case, as produced by Python's
`json` serializer for `\uXXXX` escapes. -/
def hexDigitChar (n : Nat) : Char :=
  if n < 10 then Char.ofNat (48 + n) else Char.ofNat (87 + n)

/-- Four-digit lower-case hexadecimal rendering of a code unit. -/
def hex4 (n : Nat) : String :=
  String.mk [hexDigitChar (n / 4096 % 16), hexDigitChar (n / 256 % 16),
             hexDigitChar (n / 16 % 16), hexDigitChar (n % 16)]

/-- Escaping of one character inside a JSON string literal, following
CPython's `json.encoder.py_encode_basestring_ascii` (the default
`ensure_ascii=True` mode): `"` and `\` and the named control characters
get two-character escapes, every other character outside the printable
ASCII range `0x20`–`0x7e` gets a `\uXXXX` escape (with a surrogate pair
above `0xffff`), and printable ASCII is passed through. -/
def escapeChar (c : Char) : String :=
  if c = '\"' then "\\\""
  else if c = '\\' then "\\\\"
  else if c = '\n' then "\\n"
  else if c = '\t' then "\\t"
  else if c = '\r' then "\\r"
  else if c = Char.ofNat 8 then "\\b"
  else if c = Char.ofNat 12 then "\\f"
  else if c.toNat < 32 ∨ 127 ≤ c.toNat then
    if c.toNat < 65536 then "\\u" ++ hex4 c.toNat
    else
      "\\u" ++ hex4 (55296 + (c.toNat - 65536) / 1024) ++
      "\\u" ++ hex4 (56320 + (c.toNat - 65536) % 1024)
  else String.mk [c]

/-- Escaping of the body of a JSON string literal. -/
def escapeString (s : String) : String :=
  String.join (s.data.map escapeChar)

/-- A JSON string literal: quoted, escaped body. -/
def jstr (s : String) : String := "\"" ++ escapeString s ++ "\""

/-- `n` spaces, the indentation prefix produced by `indent=2` at nesting
depth `n / 2`. -/
def indentStr (n : Nat) : String := String.mk (List.replicate n ' ')

mutual

/-- `json.dumps(v, indent=2)` at current indentation width `lvl`:
with `indent` set, CPython uses separators `(",", ": ")`, puts every
array item and object member on its own line indented two spaces deeper,
and renders empty containers as `[]` and `\x7b\x7d` with no newline. -/
def dumps (lvl : Nat) : Json → String
  | .str s => jstr s
  | .arr [] => "[]"
  | .arr (x :: xs) =>
      "[\n" ++ indentStr (lvl + 2) ++ dumps (lvl + 2) x ++
      dumpsArrRest (lvl + 2) xs ++ "\n" ++ indentStr lvl ++ "]"
  | .obj [] => "\x7b\x7d"
  | .obj ((k, v) :: kvs) =>
      "\x7b\n" ++ indentStr (lvl + 2) ++ jstr k ++ ": " ++ dumps (lvl + 2) v ++
      dumpsObjRest (lvl + 2) kvs ++ "\n" ++ indentStr lvl ++ "\x7d"

/-- Remaining array items after the first, each preceded by the item
separator `","` and a fresh indented line. -/
def dumpsArrRest (lvl : Nat) : List Json → String
  | [] => ""
  | x :: xs => ",\n" ++ indentStr lvl ++ dumps lvl x ++ dumpsArrRest lvl xs

/-- Remaining object members after the first, each preceded by the item
separator `","` and a fresh indented line, key and value joined by `": "`. -/
def dumpsObjRest (lvl : Nat) : List (String × Json) → String
  | [] => ""
  | (k, v) :: kvs =>
      ",\n" ++ indentStr lvl ++ jstr k ++ ": " ++ dumps lvl v ++
      dumpsObjRest lvl kvs

end

/-- JSON insignificant whitespace, skipped between tokens by the parser
(space, tab, newline, carriage return, as in RFC 8259 and CPython's
`json.decoder`). -/
def skipWs : List Char → List Char
  | c :: cs =>
      if c = ' ' ∨ c = '\n' ∨ c = '\t' ∨ c = '\r' then skipWs cs else c :: cs
  | [] => []

/-- Value of one hexadecimal digit, or `none` for a non-digit. -/
def hexVal (c : Char) : Option Nat :=
  if '0' ≤ c ∧ c ≤ '9' then some (c.toNat - 48)
  else if 'a' ≤ c ∧ c ≤ 'f' then some (c.toNat - 87)
  else if 'A' ≤ c ∧ c ≤ 'F' then some (c.toNat - 55)
  else none

/-- Body of a JSON string literal after the opening quote, as decoded by
`json.loads`: stops at the closing quote, decodes the two-character and
`\uXXXX` escapes, and rejects raw control characters (strict mode) and
unterminated or malformed input. -/
def parseStringBody : List Char → Option (List Char × List Char)
  | [] => none
  | '\"' :: rest => some ([], rest)
  | '\\' :: '\"' :: rest =>
      (parseStringBody rest).map (fun pr => ('\"' :: pr.1, pr.2))
  | '\\' :: '\\' :: rest =>
      (parseStringBody rest).map (fun pr => ('\\' :: pr.1, pr.2))
  | '\\' :: '/' :: rest =>
      (parseStringBody rest).map (fun pr => ('/' :: pr.1, pr.2))
  | '\\' :: 'b' :: rest =>
      (parseStringBody rest).map (fun pr => (Char.ofNat 8 :: pr.1, pr.2))
  | '\\' :: 'f' :: rest =>
      (parseStringBody rest).map (fun pr => (Char.ofNat 12 :: pr.1, pr.2))
  | '\\' :: 'n' :: rest =>
      (parseStringBody rest).map (fun pr => ('\n' :: pr.1, pr.2))
  | '\\' :: 'r' :: rest =>
      (parseStringBody rest).map (fun pr => ('\r' :: pr.1, pr.2))
  | '\\' :: 't' :: rest =>
      (parseStringBody rest).map (fun pr => ('\t' :: pr.1, pr.2))
  | '\\' :: 'u' :: a :: b :: c :: d :: rest =>
      match hexVal a, hexVal b, hexVal c, hexVal d with
      | some ha, some hb, some hc, some hd =>
          (parseStringBody rest).map
            (fun pr =>
              (Char.ofNat (ha * 4096 + hb * 256 + hc * 16 + hd) :: pr.1, pr.2))
      | _, _, _, _ => none
  | '\\' :: _ => none
  | c :: rest =>
      if c.toNat < 32 then none
      else (parseStringBody rest).map (fun pr => (c :: pr.1, pr.2))

mutual

/-- One JSON value of the fragment the scripts emit (strings, arrays,
objects), parsed from the head of the input after skipping whitespace,
returning the value and the unconsumed remainder.  `fuel` bounds the
recursion depth; `loads` supplies more fuel than any input can use. -/
def parseValue : Nat → List Char → Option (Json × List Char)
  | 0, _ => none
  | Nat.succ fuel, cs =>
      match skipWs cs with
      | '\"' :: rest =>
          (parseStringBody rest).map
            (fun pr => (Json.str (String.mk pr.1), pr.2))
      | '[' :: rest =>
          match skipWs rest with
          | ']' :: rest2 => some (Json.arr [], rest2)
          | _ =>
              (parseItems fuel rest).map (fun pr => (Json.arr pr.1, pr.2))
      | '\x7b' :: rest =>
          match skipWs rest with
          | '\x7d' :: rest2 => some (Json.obj [], rest2)
          | _ =>
              (parseMembers fuel rest).map (fun pr => (Json.obj pr.1, pr.2))
      | _ => none

/-- The comma-separated items of a non-empty JSON array, up to and
including the closing bracket. -/
def parseItems : Nat → List Char → Option (List Json × List Char)
  | 0, _ => none
  | Nat.succ fuel, cs =>
      match parseValue fuel cs with
      | none => none
      | some (v, rest) =>
          match skipWs rest with
          | ',' :: rest2 =>
              (parseItems fuel rest2).map (fun pr => (v :: pr.1, pr.2))
          | ']' :: rest2 => some ([v], rest2)
          | _ => none

/-- The comma-separated `"key": value` members of a non-empty JSON
object, up to and including the closing brace. -/
def parseMembers : Nat → List Char → Option (List (String × Json) × List Char)
  | 0, _ => none
  | Nat.succ fuel, cs =>
      match skipWs cs with
      | '\"' :: rest =>
          match parseStringBody rest with
          | none => none
          | some (kcs, rest2) =>
              match skipWs rest2 with
              | ':' :: rest3 =>
                  match parseValue fuel rest3 with
                  | none => none
                  | some (v, rest4) =>
                      match skipWs rest4 with
                      | ',' :: rest5 =>
                          (parseMembers fuel rest5).map
                            (fun pr => ((String.mk kcs, v) :: pr.1, pr.2))
                      | '\x7d' :: rest5 =>
                          some ([(String.mk kcs, v)], rest5)
                      | _ => none
              | _ => none
      | _ => none

end

/-- `json.loads` on the fragment the scripts emit: parse one value and
require that nothing but whitespace follows it. -/
def loads (s : String) : Option Json :=
  match parseValue (s.length + 1) s.data with
  | some (v, rest) => if skipWs rest = [] then some v else none
  | none => none

namespace StorageSelector

/-- `select` from `src/skills/database-storage/scripts/storage_selector.py`:
returns the literal dict
`\x7b"local": ["shared_prefs", "hive", "sqflite"], "cloud": ["firestore", "supabase"]\x7d`.
The `Unit` argument models one call of the zero-argument Python function. -/
def select (_ : Unit) : Json :=
  Json.obj
    [("local", Json.arr [Json.str "shared_prefs", Json.str "hive",
                         Json.str "sqflite"]),
     ("cloud", Json.arr [Json.str "firestore", Json.str "supabase"])]

/-- The `if __name__ == "__main__"` entry point of the storage script:
`print(json.dumps(select(), indent=2))`.  The result is the full text
written to standard output (`print` appends one newline) paired with the
process exit code; the script has no failure branch, so the embedding is
a total function and the exit code is the interpreter's default `0`. -/
def runMain (u : Unit) : String × Nat := (dumps 0 (select u) ++ "\n", 0)

end StorageSelector

namespace PerfAnalyzer

/-- `analyze` from `src/skills/performance/scripts/perf_analyzer.py`:
returns the literal dict
`\x7b"metrics": ["fps", "memory", "startup", "size"], "tools": ["devtools", "firebase_perf"]\x7d`. -/
def analyze (_ : Unit) : Json :=
  Json.obj
    [("metrics", Json.arr [Json.str "fps", Json.str "memory",
                           Json.str "startup", Json.str "size"]),
     ("tools", Json.arr [Json.str "devtools", Json.str "firebase_perf"])]

/-- The entry point of the performance script:
`print(json.dumps(analyze(), indent=2))`, as in `StorageSelector.runMain`. -/
def runMain (u : Unit) : String × Nat := (dumps 0 (analyze u) ++ "\n", 0)

end PerfAnalyzer

namespace StateSelector

/-- `select` from `src/skills/state-management/scripts/state_selector.py`:
returns the literal dict
`\x7b"simple": ["setState", "ValueNotifier"], "medium": ["Provider", "Riverpod"], "complex": ["BLoC", "Redux"]\x7d`. -/
def select (_ : Unit) : Json :=
  Json.obj
    [("simple", Json.arr [Json.str "setState", Json.str "ValueNotifier"]),
     ("medium", Json.arr [Json.str "Provider", Json.str "Riverpod"]),
     ("complex", Json.arr [Json.str "BLoC", Json.str "Redux"])]

/-- The entry point of the state-management script:
`print(json.dumps(select(), indent=2))`, as in `StorageSelector.runMain`. -/
def runMain (u : Unit) : String × Nat := (dumps 0 (select u) ++ "\n", 0)

end StateSelector

/-- Whether a list of strings contains a duplicate entry. -/
def hasDup : List String → Bool
  | [] => false
  | k :: ks => ks.contains k || hasDup ks

/-- An option entry of a recommendation table: a non-empty string. -/
def entryOk : Json → Bool
  | .str s => decide (s ≠ "")
  | _ => false

/-- A value of a recommendation table: a non-empty list of non-empty
string entries. -/
def valueOk : Json → Bool
  | .arr items => !items.isEmpty && items.all entryOk
  | _ => false

/-- The keys of a recommendation table, in insertion order. -/
def tableKeys : Json → List String
  | .obj kvs => kvs.map Prod.fst
  | _ => []

/-- The values of a recommendation table, in insertion order. -/
def tableValues : Json → List Json
  | .obj kvs => kvs.map Prod.snd
  | _ => []

/-- The spec's table invariant (§3): the value is a dict whose keys are
unique and whose values are non-empty sequences of non-empty text. -/
def tableOk (j : Json) : Bool :=
  match j with
  | .obj kvs =>
      !hasDup (kvs.map Prod.fst) && kvs.all (fun kv => valueOk kv.2)
  | _ => false

/-- The string entries of one table value. -/
def strEntries : Json → List String
  | .arr items =>
      items.filterMap (fun j => match j with | .str s => some s | _ => none)
  | _ => []

/-- The value sequences of a table, each projected to its string
entries, in insertion order. -/
def valueSeqs (j : Json) : List (List String) :=
  (tableValues j).map strEntries

/-- Whether two lists of strings share no entry. -/
def listsDisjoint (xs ys : List String) : Bool :=
  xs.all (fun x => !ys.contains x)

/-- Whether the lists in a list of lists are pairwise disjoint. -/
def pairwiseDisj : List (List String) → Bool
  | [] => true
  | l :: ls => ls.all (listsDisjoint l) && pairwiseDisj ls

/-- The number of entries of one table value. -/
def valueLen : Json → Nat
  | .arr items => items.length
  | _ => 0

/-- C1: the storage unit's selector always returns exactly the mapping
`\x7b"local": ["shared_prefs", "hive", "sqflite"], "cloud": ["firestore", "supabase"]\x7d`,
keys and option sequences in that order (the association-list embedding
preserves both orders literally). -/
theorem storage_select_returns_expected_table (u : Unit) :
    StorageSelector.select u =
      Json.obj
        [("local", Json.arr [Json.str "shared_prefs", Json.str "hive",
                             Json.str "sqflite"]),
         ("cloud", Json.arr [Json.str "firestore", Json.str "supabase"])] :=
  rfl

/-- C2: the performance unit's selector always returns exactly the mapping
`\x7b"metrics": ["fps", "memory", "startup", "size"], "tools": ["devtools", "firebase_perf"]\x7d`,
keys and option sequences in that order. -/
theorem perf_analyze_returns_expected_table (u : Unit) :
    PerfAnalyzer.analyze u =
      Json.obj
        [("metrics", Json.arr [Json.str "fps", Json.str "memory",
                               Json.str "startup", Json.str "size"]),
         ("tools", Json.arr [Json.str "devtools", Json.str "firebase_perf"])] :=
  rfl

/-- C3: the state-management unit's selector always returns exactly the
mapping `\x7b"simple": ["setState", "ValueNotifier"], "medium": ["Provider", "Riverpod"], "complex": ["BLoC", "Redux"]\x7d`,
keys and option sequences in that order. -/
theorem state_select_returns_expected_table (u : Unit) :
    StateSelector.select u =
      Json.obj
        [("simple", Json.arr [Json.str "setState", Json.str "ValueNotifier"]),
         ("medium", Json.arr [Json.str "Provider", Json.str "Riverpod"]),
         ("complex", Json.arr [Json.str "BLoC", Json.str "Redux"])] :=
  rfl

/-- C4: for each of the three units, the entire standard-output text of a
standalone run is the two-space-indented JSON object over the selector's
table in insertion order, followed by one final newline and nothing
else; the storage unit's text is exactly the example object of the
spec's section 6. -/
theorem stdout_is_pretty_printed_table_with_final_newline (u : Unit) :
    (StorageSelector.runMain u).1 =
      "\x7b\n  \"local\": [\n    \"shared_prefs\",\n    \"hive\",\n    \"sqflite\"\n  ],\n  \"cloud\": [\n    \"firestore\",\n    \"supabase\"\n  ]\n\x7d\n" ∧
    (PerfAnalyzer.runMain u).1 =
      "\x7b\n  \"metrics\": [\n    \"fps\",\n    \"memory\",\n    \"startup\",\n    \"size\"\n  ],\n  \"tools\": [\n    \"devtools\",\n    \"firebase_perf\"\n  ]\n\x7d\n" ∧
    (StateSelector.runMain u).1 =
      "\x7b\n  \"simple\": [\n    \"setState\",\n    \"ValueNotifier\"\n  ],\n  \"medium\": [\n    \"Provider\",\n    \"Riverpod\"\n  ],\n  \"complex\": [\n    \"BLoC\",\n    \"Redux\"\n  ]\n\x7d\n" :=
  ⟨rfl, rfl, rfl⟩

set_option maxRecDepth 8192 in
/-- C5: for every unit, parsing the standalone run's standard-output text
as JSON yields exactly the table returned by calling the selector
directly (serialize-then-parse round trip). -/
theorem stdout_roundtrips_through_loads (u : Unit) :
    loads (StorageSelector.runMain u).1 = some (StorageSelector.select u) ∧
    loads (PerfAnalyzer.runMain u).1 = some (PerfAnalyzer.analyze u) ∧
    loads (StateSelector.runMain u).1 = some (StateSelector.select u) :=
  ⟨rfl, rfl, rfl⟩

/-- C6: each unit is deterministic: two calls to the same selector return
structurally equal tables, and two standalone runs of the same unit
produce byte-identical standard output (and equal exit codes). -/
theorem selectors_and_runs_deterministic (u v : Unit) :
    StorageSelector.select u = StorageSelector.select v ∧
    PerfAnalyzer.analyze u = PerfAnalyzer.analyze v ∧
    StateSelector.select u = StateSelector.select v ∧
    StorageSelector.runMain u = StorageSelector.runMain v ∧
    PerfAnalyzer.runMain u = PerfAnalyzer.runMain v ∧
    StateSelector.runMain u = StateSelector.runMain v :=
  ⟨rfl, rfl, rfl, rfl, rfl, rfl⟩

/-- C7: every table returned by any of the three selectors has unique
keys, and every value is a non-empty sequence of non-empty text
entries. -/
theorem tables_wellformed (u : Unit) :
    tableOk (StorageSelector.select u) = true ∧
    tableOk (PerfAnalyzer.analyze u) = true ∧
    tableOk (StateSelector.select u) = true :=
  ⟨rfl, rfl, rfl⟩

/-- C8: no selector and no entry point can fail: the selectors and entry
points are total functions of the embedding (the scripts contain no
fallible operation to model), and every standalone run completes with
exit code zero — there is no error branch. -/
theorem runs_complete_with_exit_code_zero (u : Unit) :
    (StorageSelector.runMain u).2 = 0 ∧
    (PerfAnalyzer.runMain u).2 = 0 ∧
    (StateSelector.runMain u).2 = 0 :=
  ⟨rfl, rfl, rfl⟩

/-- C9: in every table of the three selectors no option label appears
twice: each value sequence has no duplicate entries, and the value
sequences of distinct keys of one table are pairwise disjoint. -/
theorem option_labels_pairwise_distinct (u : Unit) :
    ((valueSeqs (StorageSelector.select u)).all (fun l => !hasDup l) &&
       pairwiseDisj (valueSeqs (StorageSelector.select u))) = true ∧
    ((valueSeqs (PerfAnalyzer.analyze u)).all (fun l => !hasDup l) &&
       pairwiseDisj (valueSeqs (PerfAnalyzer.analyze u))) = true ∧
    ((valueSeqs (StateSelector.select u)).all (fun l => !hasDup l) &&
       pairwiseDisj (valueSeqs (StateSelector.select u))) = true :=
  ⟨rfl, rfl, rfl⟩

/-- C10: every value sequence of every table of the three selectors has
at least two entries: each category offers a choice of at least two
options. -/
theorem every_value_has_at_least_two_options (u : Unit) :
    ((tableValues (StorageSelector.select u)).all
        (fun v => decide (2 ≤ valueLen v))) = true ∧
    ((tableValues (PerfAnalyzer.analyze u)).all
        (fun v => decide (2 ≤ valueLen v))) = true ∧
    ((tableValues (StateSelector.select u)).all
        (fun v => decide (2 ≤ valueLen v))) = true :=
  ⟨rfl, rfl, rfl⟩

end FlutterPlugin
